import Mathlib

/-!
Verification of the synthetic-data-generation core of the repository
(`osbenchmark/synthetic_data_generator/`): leaf generators, mapping parser,
blueprint hydration, generation settings, the time-series window computation
and the size-bounded dataset writer.

Conventions of the embedding:
* Randomness is made explicit: every call that draws from `random`, `faker`
  or `mimesis` takes one `draw : Nat` argument per library call, and the
  library call is modelled by its documented contract (a uniform value inside
  the requested range is modelled as `lo + draw % (hi - lo + 1)`).
* Python floats are modelled as rationals, Python dates as day ordinals
  (`Nat`), `datetime.now()` as an explicit `today` argument.
* Python `None` is `Option.none`; a raised exception is `Except.error` with
  the message of the `raise` statement.
-/

set_option autoImplicit false

namespace OsbSdg

/-! ## Contract models of the external random-value collaborators (faker / random) -/

/-- Contract model of faker's `random_int(min, max)`: a value in `[lo, hi]`
(faker's defaults are `min=0, max=9999`).  The draw selects the value. -/
def fakeRandomInt (lo hi : Int) (draw : Nat) : Int :=
  lo + (draw : Int) % (hi - lo + 1)

/-- Contract model of faker's `pyfloat(min_value=lo, max_value=hi, ...)`:
a value in `[lo, hi]`, selected among 10001 evenly spaced sample points. -/
def fakePyfloatBounded (lo hi : ℚ) (draw : Nat) : ℚ :=
  lo + (hi - lo) * ((draw % 10001 : ℕ) : ℚ) / 10000

/-- Contract model of faker's `pyfloat` when only `max_value=hi` is supplied
(the source's `FloatRangeGenerator` passes `min_value` positionally, which
lands in pyfloat's `left_digits` slot, so only the upper bound constrains the
result): a value that is at most `hi`. -/
def fakePyfloatAtMost (hi : ℚ) (draw : Nat) : ℚ :=
  hi - ((draw % 10001 : ℕ) : ℚ) / 100

/-- Contract model of `random.uniform(a, b)`: a value in `[a, b]`. -/
def randomUniform (a b : ℚ) (draw : Nat) : ℚ :=
  a + (b - a) * ((draw % 10001 : ℕ) : ℚ) / 10000

/-- Contract model of `random.randint(a, b)`: an integer in `[a, b]`. -/
def randomRandint (a b : Int) (draw : Nat) : Int :=
  a + (draw : Int) % (b - a + 1)

/-- Contract model of faker's `date_between_dates(start, end)`: a day ordinal
in `[start, stop]`. -/
def fakeDateBetween (start stop : Nat) (draw : Nat) : Nat :=
  start + draw % (stop - start + 1)

/-- Contract model of faker's `ipv4()` viewed through `int(ipaddress.ip_address(.))`:
an address value in `[0, 2^32)`. -/
def fakeIpv4 (draw : Nat) : Nat :=
  draw % 4294967296

/-! ## `generators.py`: leaf generators -/

/-- `DATE_FORMATS` from `generators.py`. -/
def DATE_FORMATS : List String := ["strict_year_month", "strict_year_month_day"]

/-- Python's `format.split("||")`, implemented over the character list. -/
def splitOnBarsAux : List Char → List Char → List (List Char)
  | [], acc => [acc.reverse]
  | '|' :: '|' :: rest, acc => acc.reverse :: splitOnBarsAux rest []
  | c :: rest, acc => splitOnBarsAux rest (c :: acc)

/-- Python's `s.split("||")`. -/
def splitOnBars (s : String) : List String :=
  (splitOnBarsAux s.data []).map (fun cs => String.mk cs)

/-- Result of `DateGenerator.generate`: a raised `ValueError`, or the returned
value — `Option.none` is Python's `None` (the function body can fall off the
end), `Option.some d` is a date string denoting day ordinal `d`. -/
inductive DateResult where
  | error (msg : String)
  | value (v : Option Nat)
deriving DecidableEq, Repr

/-- Day ordinal of `datetime(2000, 1, 1)`, the default start date. -/
def date20000101 : Nat := 730120

/-- Embeds `DateGenerator.generate` from `generators.py`.
`format` is the `format` kwarg (`Option.none` when absent; the source reads it
with default `False`, and an empty string is also falsy, handled below).
When a format is supplied, the components of `format.split("||")` are checked
against `DATE_FORMATS`; an invalid component raises `ValueError`.  When all
components are valid the source picks `format_to_generate_with` (the `draw`
argument selects it) and then falls off the end of the function, returning
`None`.  With no format, it returns a date between the supplied or default
bounds. -/
def dateGeneratorGenerate (startDate endDate : Option Nat) (format : Option String)
    (today : Nat) (draw : Nat) : DateResult :=
  match format with
  | Option.some f =>
    if f = "" then
      DateResult.value (Option.some
        (fakeDateBetween (startDate.getD date20000101) (endDate.getD today) draw))
    else
      let formats := splitOnBars f
      match formats.find? (fun x => !(DATE_FORMATS.contains x)) with
      | Option.some bad =>
          DateResult.error ("Format " ++ bad ++ " does not exist in available formats")
      | Option.none =>
          -- `format_to_generate_with = random.choice(formats)` is computed here
          -- in the source and never used; the function then implicitly returns None.
          DateResult.value Option.none
  | Option.none =>
      DateResult.value (Option.some
        (fakeDateBetween (startDate.getD date20000101) (endDate.getD today) draw))

/-- A `{gte, lte}` mapping with integer values, as returned by
`IntegerRangeGenerator.generate`. -/
structure IntRange where
  gte : Int
  lte : Int
deriving DecidableEq, Repr

/-- Embeds `IntegerRangeGenerator.generate`: `gte = fake.random_int()` (faker
defaults `0..9999`), then `lte = fake.random_int(max=gte)` (so `0..gte`). -/
def integerRangeGenerate (d1 d2 : Nat) : IntRange :=
  let gte := fakeRandomInt 0 9999 d1
  let lte := fakeRandomInt 0 gte d2
  { gte := gte, lte := lte }

/-- A `{gte, lte}` mapping with float values. -/
structure RatRange where
  gte : ℚ
  lte : ℚ
deriving DecidableEq, Repr

/-- Embeds `FloatRangeGenerator.generate`: `gte = fake.pyfloat(min_value, max_value)`;
`lte = fake.pyfloat(min_value, max_value=gte)` where `min_value` is passed
positionally into `left_digits`, so only `max_value = gte` bounds `lte`. -/
def floatRangeGenerate (minVal maxVal : ℚ) (d1 d2 : Nat) : RatRange :=
  let gte := fakePyfloatBounded minVal maxVal d1
  let lte := fakePyfloatAtMost gte d2
  { gte := gte, lte := lte }

/-- A `{gte, lte}` mapping with IP address values (as address integers). -/
structure IpRange where
  gte : Nat
  lte : Nat
deriving DecidableEq, Repr

/-- Result of `IPRangeGenerator.generate`: either a CIDR string (when
`use_cidr` is set) or a `{gte, lte}` mapping. -/
inductive IpRangeResult where
  | cidr (ip : Nat)
  | range (r : IpRange)
deriving DecidableEq, Repr

/-- Embeds `IPRangeGenerator.generate`: with `use_cidr` it returns the address
plus `"/24"`; otherwise `gte` is a fresh ipv4 address and `lte` is
`max(0, gte - random.randint(1, 1000))` (Python's `max(0, ·)` is `Nat`
truncated subtraction here). -/
def ipRangeGenerate (useCidr : Bool) (d1 d2 : Nat) : IpRangeResult :=
  if useCidr then
    IpRangeResult.cidr (fakeIpv4 d1)
  else
    let gte := fakeIpv4 d1
    let lte := gte - (1 + d2 % 1000)
    IpRangeResult.range { gte := gte, lte := lte }

/-- A `{gte, lte}` mapping with date values (`Option` because the source's
`gte` entry can be Python `None`). -/
structure DateRangeValue where
  gte : Option Nat
  lte : Option Nat
deriving DecidableEq, Repr

/-- Embeds `DateRangeGenerator.generate`: validates the components of
`format.split("||")` against `DATE_FORMATS` (raising `ValueError` otherwise),
draws the unused `format_to_generate_with` (`d1`), then sets
`gte = DateGenerator().generate(**kwargs)` (with the format — `d2`) and
`lte = DateGenerator().generate(end_date=gte)` (no format — `d3`). -/
def dateRangeGenerate (startDate endDate : Option Nat) (format : String)
    (today : Nat) (d1 d2 d3 : Nat) : Except String DateRangeValue :=
  let formats := splitOnBars format
  match formats.find? (fun x => !(DATE_FORMATS.contains x)) with
  | Option.some bad =>
      Except.error ("Format " ++ bad ++ " does not exist in available formats")
  | Option.none =>
    match dateGeneratorGenerate startDate endDate (Option.some format) today d2 with
    | DateResult.error m => Except.error m
    | DateResult.value gteDate =>
      match dateGeneratorGenerate Option.none gteDate Option.none today d3 with
      | DateResult.error m => Except.error m
      | DateResult.value lteDate => Except.ok { gte := gteDate, lte := lteDate }

/-! ## `mapping_synthetic_data_generator.py`: per-type value generators -/

/-- Embeds `MappingSyntheticDataGenerator.generate_integer`: reads `min` and
`max` from params (defaults `-2147483648` / `2147483647`) and returns
`random.randint(min, max)`. -/
def generate_integer (minP maxP : Option Int) (draw : Nat) : Int :=
  let minv := minP.getD (-2147483648)
  let maxv := maxP.getD 2147483647
  randomRandint minv maxv draw

/-- Embeds `MappingSyntheticDataGenerator.generate_float`: reads `min` and
`max` from params (defaults `0` / `1000`) but returns
`random.uniform(-1000, 1000)`, ignoring both bounds. -/
def generate_float (minP maxP : Option ℚ) (draw : Nat) : ℚ :=
  let minv := minP.getD 0
  let maxv := maxP.getD 1000
  randomUniform (-1000) 1000 draw

/-! ## A model of the JSON documents the parsers consume and produce -/

/-- JSON values (the shape of `json.load`ed schema files and of the
blueprints the parser produces).  Serialization followed by deserialization
is the identity on this model, so `parse(serialize(x))`-style compositions
are modelled as plain function composition. -/
inductive Json where
  | null
  | bool (b : Bool)
  | num (n : Int)
  | str (s : String)
  | arr (elems : List Json)
  | obj (fields : List (String × Json))

/-- First value stored under key `k` in an association list (Python dict
lookup; insertion order preserved). -/
def assocLookup (fields : List (String × Json)) (k : String) : Option Json :=
  match fields with
  | [] => Option.none
  | (a, v) :: rest => if a = k then Option.some v else assocLookup rest k

/-- Python's `k in d` / `d[k]` on a JSON value: key lookup on objects,
absent on everything else. -/
def lookupKey (j : Json) (k : String) : Option Json :=
  match j with
  | Json.obj fields => assocLookup fields k
  | _ => Option.none

/-- Python's `k in d` as a Boolean. -/
def hasKey (j : Json) (k : String) : Bool :=
  (lookupKey j k).isSome

theorem assocLookup_sizeOf {fields : List (String × Json)} {k : String} {v : Json}
    (h : assocLookup fields k = Option.some v) : sizeOf v < sizeOf fields := by
  induction fields with
  | nil => simp [assocLookup] at h
  | cons p rest ih =>
    obtain ⟨a, w⟩ := p
    by_cases ha : a = k
    · simp [assocLookup, ha] at h
      subst h
      simp
      omega
    · simp [assocLookup, ha] at h
      have := ih h
      simp
      omega

theorem lookupKey_sizeOf {j : Json} {k : String} {v : Json}
    (h : lookupKey j k = Option.some v) : sizeOf v < sizeOf j := by
  cases j with
  | obj fields =>
    have := assocLookup_sizeOf h
    simp
    omega
  | null => simp [lookupKey] at h
  | bool b => simp [lookupKey] at h
  | num n => simp [lookupKey] at h
  | str s => simp [lookupKey] at h
  | arr elems => simp [lookupKey] at h

/-! ## `types.py` / `parsers.py`: the type table and the mapping parser -/

/-- `TYPE_MAPPING` from `types.py`: engine field type → generator kind. -/
def TYPE_MAPPING : List (String × String) :=
  [("text", "KEYWORD"), ("keyword", "KEYWORD"), ("long", "INTEGER"),
   ("integer", "INTEGER"), ("short", "INTEGER"), ("byte", "INTEGER"),
   ("double", "FLOAT"), ("float", "FLOAT"), ("half_float", "FLOAT"),
   ("scaled_float", "FLOAT"), ("date", "DATE"), ("boolean", "BOOLEAN"),
   ("nested", "NESTED"), ("object", "OBJECT"), ("binary", "BINARY"),
   ("ip", "IP_ADDRESS")]

/-- Python dict lookup in `TYPE_MAPPING`. -/
def typeMappingGet (t : String) : Option String :=
  match TYPE_MAPPING.find? (fun p => p.1 = t) with
  | Option.some p => Option.some p.2
  | Option.none => Option.none

/-- Embeds `MappingParser._get_field_type`.  The source wraps
`TYPE_MAPPING.get(opensearch_type)` in `try/except KeyError`, but `dict.get`
never raises `KeyError`, so the handler is dead code and an unrecognized type
yields Python `None` instead of an error. -/
def get_field_type (opensearchType : String) : Option String :=
  typeMappingGet opensearchType

/-- The blueprint entry built for a non-object field:
`{"data_generator_type": kind-or-null, "params": {}}`. -/
def leafEntry (kind : Option String) : Json :=
  Json.obj [("data_generator_type",
              match kind with
              | Option.some s => Json.str s
              | Option.none => Json.null),
            ("params", Json.obj [])]

mutual

/-- Embeds `MappingParser._parse_mapping`: iterates the `properties` object;
a field that itself has a `properties` key is recursed into, any other field
is turned into a `leafEntry` from its (required) `type` key.  A missing
`type` key raises `KeyError`; a non-object argument raises
`AttributeError` (no `.items()`). -/
def parse_mapping (properties : Json) : Except String Json :=
  match properties with
  | Json.obj fields =>
    match parse_mapping_fields fields with
    | Except.ok parsed => Except.ok (Json.obj parsed)
    | Except.error e => Except.error e
  | _ => Except.error "AttributeError: object has no attribute items"
termination_by sizeOf properties
decreasing_by
  simp_wf
  try omega

/-- The per-field loop body of `MappingParser._parse_mapping`. -/
def parse_mapping_fields (fields : List (String × Json)) :
    Except String (List (String × Json)) :=
  match fields with
  | [] => Except.ok []
  | (name, info) :: rest =>
    let parsedField : Except String Json :=
      match h : lookupKey info "properties" with
      | Option.some sub => parse_mapping sub
      | Option.none =>
        match lookupKey info "type" with
        | Option.none => Except.error "KeyError: type"
        | Option.some tv =>
          let t : Option String :=
            match tv with
            | Json.str s => get_field_type s
            | _ => Option.none
          Except.ok (leafEntry t)
    match parsedField with
    | Except.error e => Except.error e
    | Except.ok v =>
      match parse_mapping_fields rest with
      | Except.error e => Except.error e
      | Except.ok tail => Except.ok ((name, v) :: tail)
termination_by sizeOf fields
decreasing_by
  · simp_wf
    have := lookupKey_sizeOf h
    omega
  · simp_wf
    try omega

end

/-- Embeds `MappingParser._parse_template`. -/
def parse_template (template : Json) : Except String Json :=
  match lookupKey template "mappings" with
  | Option.some m =>
    match lookupKey m "properties" with
    | Option.some props => parse_mapping props
    | Option.none => Except.error "KeyError: properties"
  | Option.none => Except.error "Template does not contain mappings"

/-- Embeds `MappingParser.parse`: dispatches on the presence of a top-level
`properties` (mapping dialect) or `index_patterns` (template dialect) key and
otherwise raises `ValueError`. -/
def parse (inputData : Json) : Except String Json :=
  match lookupKey inputData "properties" with
  | Option.some props => parse_mapping props
  | Option.none =>
    if hasKey inputData "index_patterns" then
      parse_template inputData
    else
      Except.error "Invalid input: neither mapping nor template structure recognized"

/-! ## `mapping_synthetic_data_generator.py`: blueprint hydration

`transform_mapping_to_generators` turns an index mapping into a dictionary of
bound generator callables.  The embedding covers the default-constructed
generator (`mapping_config = None`), for which `default_generators` and
`overrides` are empty. -/

/-- The keys of `self.type_generators` built in
`MappingSyntheticDataGenerator.__init__`. -/
def TYPE_GENERATOR_KEYS : List String :=
  ["text", "keyword", "long", "integer", "short", "byte", "double", "float",
   "boolean", "date", "ip", "object", "nested", "geo_point"]

/-- A generator callable bound into the hydrated dictionary:
`typed t` is the method `self.type_generators[t]` (closed over empty default
params), `const s` is the fallback `lambda f, **_: "unknown_type"` (a
constant function), and `objectOf`/`nestedOf` close over a recursively
hydrated sub-dictionary (`self._generate_obj` / `self._generate_nested_array`). -/
inductive GenBinding where
  | typed (typeName : String)
  | const (s : String)
  | objectOf (sub : List (String × GenBinding))
  | nestedOf (sub : List (String × GenBinding))

theorem assocLookup_sizeOf_le {fields : List (String × Json)} {k : String} {v : Json}
    (h : assocLookup fields k = Option.some v) : sizeOf v + 2 ≤ sizeOf fields := by
  induction fields with
  | nil => simp [assocLookup] at h
  | cons p rest ih =>
    obtain ⟨a, w⟩ := p
    by_cases ha : a = k
    · simp [assocLookup, ha] at h
      subst h
      simp
      omega
    · simp [assocLookup, ha] at h
      have := ih h
      simp
      omega

theorem lookupKey_sizeOf_le {j : Json} {k : String} {v : Json}
    (h : lookupKey j k = Option.some v) : sizeOf v + 3 ≤ sizeOf j := by
  cases j with
  | obj fields =>
    have := assocLookup_sizeOf_le h
    simp
    omega
  | null => simp [lookupKey] at h
  | bool b => simp [lookupKey] at h
  | num n => simp [lookupKey] at h
  | str s => simp [lookupKey] at h
  | arr elems => simp [lookupKey] at h

mutual

/-- Embeds `MappingSyntheticDataGenerator.transform_mapping_to_generators`
(default config): extracts the `properties` object (under `mappings` when
present, else top-level, else the input itself) and hydrates each field. -/
def transform_mapping_to_generators (mappingDict : Json) :
    Except String (List (String × GenBinding)) :=
  match h : lookupKey mappingDict "mappings" with
  | Option.some m =>
      transform_properties ((lookupKey m "properties").getD (Json.obj []))
  | Option.none =>
      transform_properties ((lookupKey mappingDict "properties").getD mappingDict)
termination_by (sizeOf mappingDict, 1)
decreasing_by
  · have h3 := lookupKey_sizeOf_le h
    cases hp : lookupKey m "properties" with
    | none =>
      simp only [Option.getD_none]
      refine Prod.Lex.left _ _ ?_
      simp
      omega
    | some p =>
      have h4 := lookupKey_sizeOf_le hp
      simp only [Option.getD_some]
      exact Prod.Lex.left _ _ (by omega)
  · cases hp : lookupKey mappingDict "properties" with
    | none =>
      simp only [Option.getD_none]
      exact Prod.Lex.right _ (by omega)
    | some p =>
      have h4 := lookupKey_sizeOf_le hp
      simp only [Option.getD_some]
      exact Prod.Lex.left _ _ (by omega)

/-- The `.items()` iteration target of `transform_mapping_to_generators`
(a non-object raises `AttributeError`). -/
def transform_properties (properties : Json) :
    Except String (List (String × GenBinding)) :=
  match properties with
  | Json.obj fields => transform_fields fields
  | _ => Except.error "AttributeError: object has no attribute items"
termination_by (sizeOf properties, 0)
decreasing_by
  simp_wf
  exact Prod.Lex.left _ _ (by omega)

/-- The per-field loop of `transform_mapping_to_generators`. -/
def transform_fields (fields : List (String × Json)) :
    Except String (List (String × GenBinding)) :=
  match fields with
  | [] => Except.ok []
  | (name, fieldDef) :: rest =>
    match transform_field fieldDef with
    | Except.error e => Except.error e
    | Except.ok b =>
      match transform_fields rest with
      | Except.error e => Except.error e
      | Except.ok tail => Except.ok ((name, b) :: tail)
termination_by (sizeOf fields, 3)
decreasing_by
  · simp_wf
    exact Prod.Lex.left _ _ (by omega)
  · simp_wf
    exact Prod.Lex.left _ _ (by omega)

/-- The loop body hydrating one field: `object`/`nested` fields with nested
`properties` are recursed into; any other field's type is looked up in
`self.type_generators`, with the constant fallback
`lambda f, **_: "unknown_type"` bound when the type has no entry. -/
def transform_field (fieldDef : Json) : Except String GenBinding :=
  match fieldDef with
  | Json.obj objFields =>
    let fd := Json.obj objFields
    let fieldType : Option String :=
      match lookupKey fd "type" with
      | Option.some (Json.str s) => Option.some s
      | _ => Option.none
    if (fieldType = Option.some "object" ∨ fieldType = Option.some "nested")
        ∧ hasKey fd "properties" = true then
      match transform_mapping_to_generators fd with
      | Except.error e => Except.error e
      | Except.ok sub =>
        if fieldType = Option.some "object" then Except.ok (GenBinding.objectOf sub)
        else Except.ok (GenBinding.nestedOf sub)
    else
      match fieldType with
      | Option.some t =>
        if TYPE_GENERATOR_KEYS.contains t then Except.ok (GenBinding.typed t)
        else Except.ok (GenBinding.const "unknown_type")
      | Option.none => Except.ok (GenBinding.const "unknown_type")
  | _ => Except.error "AttributeError: object has no attribute get"
termination_by (sizeOf fieldDef, 2)
decreasing_by
  simp_wf
  exact Prod.Lex.right _ (by omega)

end

/-- Lookup in a hydrated generator dictionary. -/
def bindingLookup (bindings : List (String × GenBinding)) (k : String) :
    Option GenBinding :=
  match bindings with
  | [] => Option.none
  | (a, b) :: rest => if a = k then Option.some b else bindingLookup rest k

/-- A small mapping-dialect input: `{"properties": {"a": {"type": "long"}}}`. -/
def sampleMapping : Json :=
  Json.obj [("properties", Json.obj [("a", Json.obj [("type", Json.str "long")])])]

/-- The blueprint `parse` produces for `sampleMapping`. -/
def sampleBlueprint : Json :=
  Json.obj [("a", Json.obj [("data_generator_type", Json.str "INTEGER"),
                            ("params", Json.obj [])])]

/-! ## `helpers.py`: generation settings

`get_generation_settings` reads the module-level dict
`DEFAULT_GENERATION_SETTINGS` (its initializer lives outside the bundled
sources; only its keys matter here, so it is a parameter `defaults`).  The
mutable module state is made explicit: the embedding takes the current state
and returns `(returned value, state after the call)`. -/

/-- Lookup in the user `settings` block (whose values may be Python `None`). -/
def settingsLookup (settings : List (String × Option Int)) (k : String) :
    Option (Option Int) :=
  match settings with
  | [] => Option.none
  | (a, v) :: rest => if a = k then Option.some v else settingsLookup rest k

/-- Lookup in the (defaulted) generation-settings dict. -/
def intLookup (settings : List (String × Int)) (k : String) : Option Int :=
  match settings with
  | [] => Option.none
  | (a, v) :: rest => if a = k then Option.some v else intLookup rest k

/-- Embeds `get_generation_settings`: `generation_settings =
DEFAULT_GENERATION_SETTINGS` aliases the module dict (no copy).  With an empty
user `settings` block it returns the dict unchanged; otherwise, every
recognized key the user sets to a non-`None` value is written into the dict
in place, and the same dict object is returned.  The returned pair is
`(returned dict, module state after the call)` — the two components are equal
because the code returns the module dict itself. -/
def get_generation_settings (userSettings : List (String × Option Int))
    (defaults : List (String × Int)) :
    (List (String × Int)) × (List (String × Int)) :=
  if userSettings = [] then (defaults, defaults)
  else
    let updated := defaults.map (fun kv =>
      match settingsLookup userSettings kv.1 with
      | Option.some (Option.some v) => (kv.1, v)
      | _ => kv)
    (updated, updated)

/-- Defaults used to exercise `get_generation_settings` (keys per spec §6). -/
def sampleDefaults : List (String × Int) :=
  [("workers", 8), ("max_file_size_gb", 40), ("chunk_size", 10000)]

/-! ## `timeseries_partitioner.py`: frequency selection and window generation

`generate_windows` has two parts: frequency refinement (lines 87–120) and
window construction with the first-window consistency check (lines 133–159).
Timestamps are modelled as naturals; `pd.date_range(start, stop, freq)` over a
fixed-period frequency is the arithmetic grid `start, start+step, ...` up to
`stop` (the frequencies are an abstract `gridLen` function where only the
grid length matters). -/

/-- The `AVAILABLE_FREQUENCIES` list, coarse to fine. -/
inductive Freq where
  | B | C | D | h | bh | cbh | min | s | ms
deriving DecidableEq, Repr

/-- `AVAILABLE_FREQUENCIES` from `timeseries_partitioner.py`. -/
def AVAILABLE_FREQUENCIES : List Freq :=
  [Freq.B, Freq.C, Freq.D, Freq.h, Freq.bh, Freq.cbh, Freq.min, Freq.s, Freq.ms]

/-- `AVAILABLE_FREQUENCIES.index f`. -/
def freqIndex : Freq → Nat
  | Freq.B => 0 | Freq.C => 1 | Freq.D => 2 | Freq.h => 3 | Freq.bh => 4
  | Freq.cbh => 5 | Freq.min => 6 | Freq.s => 7 | Freq.ms => 8

/-- `AVAILABLE_FREQUENCIES[AVAILABLE_FREQUENCIES.index(f)+1:]` — the deque of
finer frequencies to try. -/
def frequenciesAfter (f : Freq) : List Freq :=
  AVAILABLE_FREQUENCIES.drop (freqIndex f + 1)

/-- The `while frequencies_to_try` loop: pop the next finer frequency,
regenerate the grid, and stop at the first frequency whose grid is strictly
larger than the buffered expected count; when the deque empties without a
hit, the last popped frequency (and its grid) is what the partitioner keeps
using.  `fr`/`n` carry the current `frequency` / `number_of_timestamps`. -/
def findFrequencyLoop (gridLen : Freq → Nat) (buffered : Nat) :
    List Freq → Freq → Nat → Freq × Nat
  | [], fr, n => (fr, n)
  | f :: rest, _, _ =>
    let n := gridLen f
    if buffered < n then (f, n) else findFrequencyLoop gridLen buffered rest f n

/-- The frequency-refinement prefix of
`TimeSeriesPartitioner.generate_windows` (lines 87–120): when the initial
grid is smaller than the buffered expected document count, either raise
`ConfigError` (only when the configured frequency is already `ms`) or walk
the finer frequencies with `findFrequencyLoop`.  Returns the frequency and
grid length the partitioner proceeds with. -/
def selectFrequency (gridLen : Freq → Nat) (buffered : Nat) (initial : Freq) :
    Except String (Freq × Nat) :=
  let n := gridLen initial
  if n < buffered then
    if initial = Freq.ms then
      Except.error "No other time frequencies to try. Not enough timestamps to generate for docs. Please expand dates and frequency accordingly."
    else
      Except.ok (findFrequencyLoop gridLen buffered (frequenciesAfter initial) initial n)
  else
    Except.ok (initial, n)

/-- `math.ceil((expected * 0.1) + expected)` for the 10% buffer, where
`expected = total_size_bytes // avg_document_size`: equals
`ceil(11 * expected / 10)`. -/
def bufferedExpectedDocs (totalSizeBytes avgDocumentSize : Nat) : Nat :=
  let expected := totalSizeBytes / avgDocumentSize
  (11 * expected + 9) / 10

/-- `pd.date_range(start, stop, freq)` for a fixed-period frequency of
`step` time units: the arithmetic grid from `start` to `stop`. -/
def dateRangeList (start stop step : Nat) : List Nat :=
  if stop < start then []
  else (List.range ((stop - start) / step + 1)).map (fun i => start + i * step)

/-- `np.arange(0, n, l)`. -/
def arangeStep (n l : Nat) : List Nat :=
  (List.range ((n + l - 1) / l)).map (fun i => i * l)

/-- The window construction of `generate_windows` (lines 134–140): start
indices `0, l, 2l, ...`, end indices `min(start + l - 1, len - 1)`, windows
are the pairs of grid values at those indices. -/
def makeWindows (ts : List Nat) (l : Nat) : List (Nat × Nat) :=
  (arangeStep ts.length l).map
    (fun i => (ts.getD i 0, ts.getD (min (i + l - 1) (ts.length - 1)) 0))

/-- Re-expansion of the first produced window at the chosen frequency
(line 150): `pd.date_range(first_start, first_end, freq)`. -/
def expandFirstWindow (ts : List Nat) (l step : Nat) : List Nat :=
  match makeWindows ts l with
  | [] => []
  | w :: _ => dateRangeList w.1 w.2 step

/-- The window-producing suffix of `generate_windows` (lines 133–159): build
the windows, check that the first window re-expands to exactly
`docs_per_chunk` timestamps (else raise `SystemSetupError`), and return the
window list.  An empty grid makes `datetime_windows[0]` raise `IndexError`. -/
def generateWindowsFromGrid (ts : List Nat) (l step : Nat) :
    Except String (List (Nat × Nat)) :=
  match makeWindows ts l with
  | [] => Except.error "IndexError: list index out of range"
  | w :: _ =>
    if (dateRangeList w.1 w.2 step).length ≠ l then
      Except.error "Length of first datetimestamps pair generated did not match the chunk size"
    else
      Except.ok (makeWindows ts l)

/-! ## `mapping_synthetic_data_generator.py`: the size-bounded dataset writer

`generate_dataset_with_mappings` (lines 388–419): the outer loop opens file
after file while `current_size < total_size_bytes`; the inner loop, while the
current file's stat-measured size is below `max_file_size_bytes`, gathers one
round of worker chunks, appends them (`roundActual` bytes actually written on
disk per round), adds `written * avg_document_size` to the running estimate
(`roundEst` per round), re-stats the file, and breaks once
`current_size >= total_size_bytes`.  Termination of the Python loops needs a
positive size estimate per round (a chunk is non-empty and a written document
occupies at least one byte), which is the `0 < roundEst` hypothesis; an
empty file could never reach the file ceiling, hence `0 < maxFile`. -/

/-- The inner `while file_size < max_file_size_bytes` loop for one output
file.  Returns `(file_size, current_size)` at loop exit. -/
def datasetFillFile (total maxFile roundActual roundEst : Nat) (hE : 0 < roundEst)
    (cur fileSize : Nat) : Nat × Nat :=
  if fileSize < maxFile then
    if total ≤ cur + roundEst then (fileSize + roundActual, cur + roundEst)
    else datasetFillFile total maxFile roundActual roundEst hE
      (cur + roundEst) (fileSize + roundActual)
  else (fileSize, cur)
termination_by total - cur
decreasing_by
  simp_wf
  omega

/-- Together: the running estimate never decreases; the inner loop exits only
with the file at or above the ceiling or the byte budget reached; and when
the actual round bytes equal the estimated round bytes the file growth equals
the estimate growth. -/
theorem datasetFillFile_spec (total maxFile rA rE : Nat) (hE : 0 < rE) :
    ∀ (n cur fileSize : Nat), total - cur ≤ n →
      cur ≤ (datasetFillFile total maxFile rA rE hE cur fileSize).2
      ∧ (maxFile ≤ (datasetFillFile total maxFile rA rE hE cur fileSize).1
          ∨ total ≤ (datasetFillFile total maxFile rA rE hE cur fileSize).2)
      ∧ (rA = rE →
          (datasetFillFile total maxFile rA rE hE cur fileSize).1 + cur =
          (datasetFillFile total maxFile rA rE hE cur fileSize).2 + fileSize) := by
  intro n
  induction n with
  | zero =>
    intro cur fileSize hn
    rw [datasetFillFile]
    by_cases hf : fileSize < maxFile
    · rw [if_pos hf, if_pos (by omega)]
      exact ⟨by omega, Or.inr (by omega), fun hae => by omega⟩
    · rw [if_neg hf]
      exact ⟨Nat.le_refl _, Or.inl (by omega), fun _ => by omega⟩
  | succ n ih =>
    intro cur fileSize hn
    rw [datasetFillFile]
    by_cases hf : fileSize < maxFile
    · rw [if_pos hf]
      by_cases hb : total ≤ cur + rE
      · rw [if_pos hb]
        exact ⟨by omega, Or.inr (by omega), fun _ => by omega⟩
      · rw [if_neg hb]
        have hrec := ih (cur + rE) (fileSize + rA) (by omega)
        refine ⟨by omega, hrec.2.1, fun hae => ?_⟩
        have h2 := hrec.2.2 hae
        omega
    · rw [if_neg hf]
      exact ⟨Nat.le_refl _, Or.inl (by omega), fun _ => by omega⟩

/-- Entering the inner loop below the file ceiling performs at least one
round, so the estimate grows by at least `roundEst`. -/
theorem datasetFillFile_first (total maxFile rA rE : Nat) (hE : 0 < rE)
    (cur fileSize : Nat) (hf : fileSize < maxFile) :
    cur + rE ≤ (datasetFillFile total maxFile rA rE hE cur fileSize).2 := by
  rw [datasetFillFile, if_pos hf]
  by_cases hb : total ≤ cur + rE
  · rw [if_pos hb]
  · rw [if_neg hb]
    exact (datasetFillFile_spec total maxFile rA rE hE (total - (cur + rE))
      (cur + rE) (fileSize + rA) (Nat.le_refl _)).1

/-- The outer `while current_size < total_size_bytes` loop: each iteration
opens a fresh file (`file_size = 0`), fills it with `datasetFillFile`, and
records its final stat-measured size (`file_counter += 1`).  Returns the
sizes of all produced files and the final running estimate. -/
def datasetRun (total maxFile roundActual roundEst : Nat) (hE : 0 < roundEst)
    (hM : 0 < maxFile) (cur : Nat) (files : List Nat) : List Nat × Nat :=
  if cur < total then
    datasetRun total maxFile roundActual roundEst hE hM
      (datasetFillFile total maxFile roundActual roundEst hE cur 0).2
      (files ++ [(datasetFillFile total maxFile roundActual roundEst hE cur 0).1])
  else (files, cur)
termination_by total - cur
decreasing_by
  have h1 := datasetFillFile_first total maxFile roundActual roundEst hE cur 0 hM
  simp_wf
  omega

/-- Embeds `generate_dataset_with_mappings`: run the writer from an empty
state. -/
def generate_dataset (total maxFile roundActual roundEst : Nat)
    (hE : 0 < roundEst) (hM : 0 < maxFile) : List Nat × Nat :=
  datasetRun total maxFile roundActual roundEst hE hM 0 []

/-! ## Theorems for the range and numeric generators (claims C5, C6, C8) -/

/-- C5, counterexample: the claim `gte ≤ lte` fails for `INTEGER_RANGE` at the
concrete draws `(5, 3)`: the source derives `gte = 5` first and then
`lte = 3 ≤ gte` downward from it, so `gte ≤ lte` is false. -/
theorem claim_C5_counterexample :
    (integerRangeGenerate 5 3).gte = 5 ∧ (integerRangeGenerate 5 3).lte = 3 ∧
    ¬ ((integerRangeGenerate 5 3).gte ≤ (integerRangeGenerate 5 3).lte) := by
  refine ⟨by decide, by decide, by decide⟩

/-- C5, amended: for every sample, `INTEGER_RANGE`, `FLOAT_RANGE` and
`IP_RANGE` satisfy `lte ≤ gte` (the source derives `lte` downward from `gte`),
and `DATE_RANGE` (exercised with the supported format `strict_year_month`)
returns `gte = None` — the date generator returns no value when a format is
supplied — while `lte` is a date, so no chronological order holds. -/
theorem claim_C5_amended :
    (∀ d1 d2 : Nat, (integerRangeGenerate d1 d2).lte ≤ (integerRangeGenerate d1 d2).gte)
    ∧ (∀ (minVal maxVal : ℚ) (d1 d2 : Nat),
        (floatRangeGenerate minVal maxVal d1 d2).lte ≤ (floatRangeGenerate minVal maxVal d1 d2).gte)
    ∧ (∀ d1 d2 : Nat, ∃ r : IpRange,
        ipRangeGenerate false d1 d2 = IpRangeResult.range r ∧ r.lte ≤ r.gte)
    ∧ (∀ (sd ed : Option Nat) (today d1 d2 d3 : Nat),
        dateRangeGenerate sd ed "strict_year_month" today d1 d2 d3 =
          Except.ok { gte := Option.none,
                      lte := Option.some (fakeDateBetween date20000101 today d3) }) := by
  refine ⟨?_, ?_, ?_, ?_⟩
  · intro d1 d2
    show fakeRandomInt 0 (fakeRandomInt 0 9999 d1) d2 ≤ fakeRandomInt 0 9999 d1
    unfold fakeRandomInt
    have h1 : (0:Int) ≤ (d1 : Int) % (9999 - 0 + 1) :=
      Int.emod_nonneg _ (by norm_num)
    have h2 : (d2 : Int) % (0 + (d1 : Int) % (9999 - 0 + 1) - 0 + 1) <
        0 + (d1 : Int) % (9999 - 0 + 1) - 0 + 1 :=
      Int.emod_lt_of_pos _ (by omega)
    omega
  · intro minVal maxVal d1 d2
    show fakePyfloatAtMost (fakePyfloatBounded minVal maxVal d1) d2 ≤
      fakePyfloatBounded minVal maxVal d1
    unfold fakePyfloatAtMost
    have h : (0:ℚ) ≤ ((d2 % 10001 : ℕ) : ℚ) / 100 := by positivity
    linarith
  · intro d1 d2
    refine ⟨{ gte := fakeIpv4 d1, lte := fakeIpv4 d1 - (1 + d2 % 1000) }, rfl, ?_⟩
    exact Nat.sub_le _ _
  · intro sd ed today d1 d2 d3
    rfl

/-- C6: `MappingSyntheticDataGenerator.generate_float` reads `min`/`max` from
its params but returns `random.uniform(-1000, 1000)` regardless, so with
`min=100, max=200` and the draw selecting the low end of the uniform range the
result is `-1000`, outside the requested bounds (its own unit test asserts
`1 <= x <= 10` for `min=1, max=10`). -/
theorem claim_C6_float_ignores_bounds :
    generate_float (Option.some 100) (Option.some 200) 0 = -1000 ∧
    ¬ ((100:ℚ) ≤ generate_float (Option.some 100) (Option.some 200) 0) := by
  have h : generate_float (Option.some 100) (Option.some 200) 0 = -1000 := by
    show randomUniform (-1000) 1000 0 = -1000
    unfold randomUniform
    norm_num
  refine ⟨h, by rw [h]; norm_num⟩

/-- C8: `DateGenerator.generate` with the supported format
`strict_year_month` validates it, draws the unused `format_to_generate_with`,
and then falls off the end of the function: it returns Python `None`, not a
date string in the requested format.  An unsupported format does raise, and
the no-format path does return a date from the default range. -/
theorem claim_C8_valid_format_returns_none :
    dateGeneratorGenerate Option.none Option.none (Option.some "strict_year_month") 739251 0 =
      DateResult.value Option.none
    ∧ dateGeneratorGenerate Option.none Option.none (Option.some "bogus") 739251 0 =
      DateResult.error "Format bogus does not exist in available formats"
    ∧ dateGeneratorGenerate Option.none Option.none Option.none 739251 17 =
      DateResult.value (Option.some (fakeDateBetween date20000101 739251 17)) := by
  refine ⟨rfl, rfl, rfl⟩

/-! ## Theorems for the mapping parser (claims C7, C9) -/

/-- C7: for a mapping whose field type `"wildcard"` is not in `TYPE_MAPPING`,
parsing does not fail — `dict.get` never raises `KeyError`, so the
`except KeyError` handler in `_get_field_type` is dead code and the parser
silently produces a blueprint entry with `data_generator_type: null` for the
field, contradicting the documented `UnsupportedFieldTypeError`. -/
theorem claim_C7_unknown_type_produces_null_entry :
    parse (Json.obj [("properties",
        Json.obj [("f", Json.obj [("type", Json.str "wildcard")])])]) =
      Except.ok (Json.obj [("f", leafEntry Option.none)])
    ∧ get_field_type "wildcard" = Option.none
    ∧ lookupKey (leafEntry Option.none) "data_generator_type" = Option.some Json.null := by
  refine ⟨?_, rfl, rfl⟩
  simp [parse, lookupKey, assocLookup, parse_mapping, parse_mapping_fields,
    get_field_type, typeMappingGet, TYPE_MAPPING, leafEntry]

/-- C9, counterexample: parsing is not idempotent.  For the valid mapping
input `sampleMapping`, `parse` yields `sampleBlueprint`, but parsing the
(JSON-round-tripped) blueprint raises `ValueError` — the blueprint has
neither a `properties` nor an `index_patterns` top-level key — so
`parse(serialize(parse(x)))` is an error, not `parse(x)`. -/
theorem claim_C9_counterexample :
    parse sampleMapping = Except.ok sampleBlueprint
    ∧ parse sampleBlueprint =
        Except.error "Invalid input: neither mapping nor template structure recognized"
    ∧ (Except.error "Invalid input: neither mapping nor template structure recognized"
        ≠ (Except.ok sampleBlueprint : Except String Json)) := by
  refine ⟨?_, ?_, fun h => Except.noConfusion h⟩
  · simp [parse, sampleMapping, sampleBlueprint, lookupKey, assocLookup, parse_mapping,
      parse_mapping_fields, get_field_type, typeMappingGet, TYPE_MAPPING, leafEntry]
  · simp [parse, sampleBlueprint, lookupKey, assocLookup, hasKey]

/-- C9, amended: parsing a serialized blueprint fails instead of reproducing
it: whenever `parse x` succeeds with a blueprint that (like every blueprint of
a mapping without a field literally named `properties` or `index_patterns`)
has neither top-level key, re-parsing raises the `ValueError`
`"Invalid input: neither mapping nor template structure recognized"`. -/
theorem claim_C9_amended (x bp : Json) (hparse : parse x = Except.ok bp)
    (hp : hasKey bp "properties" = false) (hi : hasKey bp "index_patterns" = false) :
    parse bp =
      Except.error "Invalid input: neither mapping nor template structure recognized" := by
  have h1 : lookupKey bp "properties" = Option.none := by
    cases hl : lookupKey bp "properties" with
    | none => rfl
    | some v => rw [hasKey, hl] at hp; simp at hp
  rw [parse, h1, if_neg]
  simp [hi]

/-- Witness for `claim_C9_amended` at `sampleMapping` / `sampleBlueprint`. -/
theorem claim_C9_amended_witness :
    parse sampleBlueprint =
      Except.error "Invalid input: neither mapping nor template structure recognized" :=
  claim_C9_amended sampleMapping sampleBlueprint
    (by simp [parse, sampleMapping, sampleBlueprint, lookupKey, assocLookup, parse_mapping,
      parse_mapping_fields, get_field_type, typeMappingGet, TYPE_MAPPING, leafEntry])
    rfl rfl

/-! ## Theorem for the generation settings (claim C10) -/

/-- A call with an empty user settings block returns the module dict as is. -/
theorem get_generation_settings_empty (d : List (String × Int)) :
    get_generation_settings [] d = (d, d) := by
  rw [get_generation_settings, if_pos rfl]

/-- The in-place update loop rewrites the value of a present key that the
user sets to a non-`None` value. -/
theorem intLookup_update (user : List (String × Option Int)) (k : String) (v : Int)
    (hu : settingsLookup user k = Option.some (Option.some v)) :
    ∀ d : List (String × Int), (intLookup d k).isSome = true →
    intLookup (d.map (fun kv =>
        match settingsLookup user kv.1 with
        | Option.some (Option.some w) => (kv.1, w)
        | _ => kv)) k = Option.some v := by
  intro d
  induction d with
  | nil => intro hk; simp [intLookup] at hk
  | cons kv rest ih =>
    intro hk
    obtain ⟨a, w⟩ := kv
    by_cases ha : a = k
    · subst ha
      simp [intLookup, hu]
    · rw [intLookup, if_neg ha] at hk
      have := ih hk
      cases hcase : settingsLookup user a with
      | none => simpa [intLookup, hcase, ha] using this
      | some o =>
        cases o with
        | none => simpa [intLookup, hcase, ha] using this
        | some w2 => simpa [intLookup, hcase, ha] using this

/-- C10: `get_generation_settings` returns the module-level defaults dict
itself (returned value and post-call module state coincide), and an override
of a recognized key with a non-`None` value is written into that shared dict,
so a later call with an empty `settings` block returns the overridden value
rather than the original default. -/
theorem claim_C10_settings_aliasing (defaults : List (String × Int))
    (user : List (String × Option Int)) (k : String) (v : Int)
    (hne : user ≠ []) (hu : settingsLookup user k = Option.some (Option.some v))
    (hk : (intLookup defaults k).isSome = true) :
    (get_generation_settings user defaults).1 = (get_generation_settings user defaults).2
    ∧ intLookup (get_generation_settings [] (get_generation_settings user defaults).2).1 k
        = Option.some v := by
  constructor
  · rw [get_generation_settings, if_neg hne]
  · rw [get_generation_settings_empty]
    rw [get_generation_settings, if_neg hne]
    exact intLookup_update user k v hu defaults hk

/-- Witness for `claim_C10_settings_aliasing`: overriding
`max_file_size_gb` to `2` persists into a later call with no user settings. -/
theorem claim_C10_settings_aliasing_witness :
    (get_generation_settings [("max_file_size_gb", Option.some 2)] sampleDefaults).1
      = (get_generation_settings [("max_file_size_gb", Option.some 2)] sampleDefaults).2
    ∧ intLookup (get_generation_settings []
        (get_generation_settings [("max_file_size_gb", Option.some 2)] sampleDefaults).2).1
        "max_file_size_gb" = Option.some 2 :=
  claim_C10_settings_aliasing sampleDefaults [("max_file_size_gb", Option.some 2)]
    "max_file_size_gb" 2 (by simp) rfl rfl

/-! ## Theorems for blueprint hydration (claim C1) -/

/-- A field whose type is not a `type_generators` key, and is therefore not
`object`/`nested`, is bound to the constant fallback generator. -/
theorem transform_field_unknown {info : Json} {t : String}
    (ht : lookupKey info "type" = Option.some (Json.str t))
    (hc : TYPE_GENERATOR_KEYS.contains t = false) :
    transform_field info = Except.ok (GenBinding.const "unknown_type") := by
  have hob : t ≠ "object" := by
    intro he; subst he; simp [TYPE_GENERATOR_KEYS] at hc
  have hne : t ≠ "nested" := by
    intro he; subst he; simp [TYPE_GENERATOR_KEYS] at hc
  cases info with
  | obj objFields =>
    rw [transform_field]
    simp only [ht]
    rw [if_neg]
    · rw [if_neg]
      intro hcontains
      rw [hc] at hcontains
      exact Bool.noConfusion hcontains
    · intro hand
      rcases hand.1 with h1 | h1
      · exact hob (Option.some.inj h1)
      · exact hne (Option.some.inj h1)
  | null => simp [lookupKey] at ht
  | bool b => simp [lookupKey] at ht
  | num n => simp [lookupKey] at ht
  | str s => simp [lookupKey] at ht
  | arr elems => simp [lookupKey] at ht

/-- C1, counterexample: hydrating a schema with a field of the unregistered
type `"foo_type"` does not fail — `transform_mapping_to_generators` succeeds
and silently binds the fallback generator `lambda f, **_: "unknown_type"`
to the field, contradicting the claimed hard `UnknownGeneratorKindError` at
hydration time. -/
theorem claim_C1_counterexample :
    transform_mapping_to_generators
        (Json.obj [("properties",
          Json.obj [("f", Json.obj [("type", Json.str "foo_type")])])]) =
      Except.ok [("f", GenBinding.const "unknown_type")]
    ∧ TYPE_GENERATOR_KEYS.contains "foo_type" = false := by
  refine ⟨?_, rfl⟩
  simp [transform_mapping_to_generators, transform_properties, transform_fields,
    transform_field, lookupKey, assocLookup, hasKey, TYPE_GENERATOR_KEYS]

/-- C1, amended: hydration does not fail for unknown generator kinds.  For
every schema field list that hydrates successfully, a field whose declared
type has no `type_generators` entry comes out bound to the constant fallback
generator producing the string `"unknown_type"` — a silent fallback rather
than a hydration-time error. -/
theorem claim_C1_amended (props : List (String × Json)) (name : String) (info : Json)
    (t : String) (bs : List (String × GenBinding))
    (hok : transform_fields props = Except.ok bs)
    (hfind : assocLookup props name = Option.some info)
    (ht : lookupKey info "type" = Option.some (Json.str t))
    (hc : TYPE_GENERATOR_KEYS.contains t = false) :
    bindingLookup bs name = Option.some (GenBinding.const "unknown_type") := by
  induction props generalizing bs with
  | nil => simp [assocLookup] at hfind
  | cons p rest ih =>
    obtain ⟨n, i⟩ := p
    rw [transform_fields] at hok
    cases htf : transform_field i with
    | error e => rw [htf] at hok; exact Except.noConfusion hok
    | ok b =>
      rw [htf] at hok
      cases htr : transform_fields rest with
      | error e => rw [htr] at hok; exact Except.noConfusion hok
      | ok tail =>
        rw [htr] at hok
        have hbs : (n, b) :: tail = bs := Except.ok.inj hok
        subst hbs
        by_cases hn : n = name
        · rw [assocLookup, if_pos hn] at hfind
          have hinfo : i = info := Option.some.inj hfind
          subst hinfo
          have := transform_field_unknown ht hc
          rw [this] at htf
          have hb : b = GenBinding.const "unknown_type" :=
            (Except.ok.inj htf).symm
          rw [bindingLookup, if_pos hn, hb]
        · rw [assocLookup, if_neg hn] at hfind
          rw [bindingLookup, if_neg hn]
          exact ih tail htr hfind

/-- Witness for `claim_C1_amended` at the single-field schema
`{"f": {"type": "foo_type"}}`. -/
theorem claim_C1_amended_witness :
    bindingLookup [("f", GenBinding.const "unknown_type")] "f" =
      Option.some (GenBinding.const "unknown_type") :=
  claim_C1_amended [("f", Json.obj [("type", Json.str "foo_type")])] "f"
    (Json.obj [("type", Json.str "foo_type")]) "foo_type"
    [("f", GenBinding.const "unknown_type")]
    (by simp [transform_fields, transform_field, lookupKey, assocLookup, hasKey,
      TYPE_GENERATOR_KEYS])
    rfl rfl rfl

/-! ## Theorems for the time-series partitioner (claims C3, C4) -/

theorem dateRangeList_length (start stop step : Nat) (hss : start ≤ stop) :
    (dateRangeList start stop step).length = (stop - start) / step + 1 := by
  unfold dateRangeList
  rw [if_neg (by omega)]
  simp

theorem dateRangeList_getD (start stop step i : Nat) (hss : start ≤ stop)
    (hi : i < (stop - start) / step + 1) :
    (dateRangeList start stop step).getD i 0 = start + i * step := by
  unfold dateRangeList
  rw [if_neg (by omega)]
  rw [List.getD_eq_getElem _ _ (by simpa using hi)]
  simp

theorem makeWindows_length (ts : List Nat) (l : Nat) :
    (makeWindows ts l).length = (ts.length + l - 1) / l := by
  simp [makeWindows, arangeStep]

theorem makeWindows_getD (ts : List Nat) (l i : Nat)
    (hi : i < (ts.length + l - 1) / l) :
    (makeWindows ts l).getD i (0, 0) =
      (ts.getD (i * l) 0, ts.getD (min (i * l + l - 1) (ts.length - 1)) 0) := by
  unfold makeWindows arangeStep
  rw [List.getD_eq_getElem _ _ (by simpa using hi)]
  simp

/-- C3: over a uniform timestamp grid (`pd.date_range` at a fixed-period
frequency `step`), `generate_windows` produces exactly
`ceil(grid_length / docs_per_chunk)` windows; consecutive windows are
contiguous (each next window starts one step after the previous window's
end); and it returns the windows iff re-expanding the first window at the
chosen frequency yields exactly `docs_per_chunk` timestamps, raising the
consistency error otherwise.  (The re-expansion length is
`min docs_per_chunk grid_length`, so the error fires exactly on grids shorter
than one chunk.) -/
theorem claim_C3_window_partitioning (start stop step l : Nat)
    (hstep : 0 < step) (hl : 0 < l) (hss : start ≤ stop) :
    ((makeWindows (dateRangeList start stop step) l).length =
      ((dateRangeList start stop step).length + l - 1) / l)
    ∧ ((expandFirstWindow (dateRangeList start stop step) l step).length =
        min l (dateRangeList start stop step).length)
    ∧ (generateWindowsFromGrid (dateRangeList start stop step) l step =
        Except.ok (makeWindows (dateRangeList start stop step) l) ↔
        (expandFirstWindow (dateRangeList start stop step) l step).length = l)
    ∧ ((expandFirstWindow (dateRangeList start stop step) l step).length ≠ l →
        generateWindowsFromGrid (dateRangeList start stop step) l step =
          Except.error "Length of first datetimestamps pair generated did not match the chunk size")
    ∧ (∀ i : Nat, i + 1 < (makeWindows (dateRangeList start stop step) l).length →
        ((makeWindows (dateRangeList start stop step) l).getD (i + 1) (0, 0)).1 =
        ((makeWindows (dateRangeList start stop step) l).getD i (0, 0)).2 + step) := by
  have hlen := dateRangeList_length start stop step hss
  have hgetD : ∀ i : Nat, i < (stop - start) / step + 1 →
      (dateRangeList start stop step).getD i 0 = start + i * step :=
    fun i hi => dateRangeList_getD start stop step i hss hi
  generalize hts : dateRangeList start stop step = ts at *
  have hn : ts.length = (stop - start) / step + 1 := hlen
  generalize hq : (stop - start) / step = q at hn hgetD
  have hnpos : 0 < ts.length := by omega
  have hcount : (makeWindows ts l).length = (ts.length + l - 1) / l :=
    makeWindows_length ts l
  have hcnt1 : 1 * l ≤ ts.length + l - 1 := by omega
  have hcntone : 1 ≤ (ts.length + l - 1) / l := (Nat.le_div_iff_mul_le hl).mpr hcnt1
  have hcountpos : 0 < (makeWindows ts l).length := by
    rw [hcount]
    exact Nat.lt_of_lt_of_le Nat.zero_lt_one hcntone
  have h0 : (0 : Nat) < (ts.length + l - 1) / l :=
    Nat.lt_of_lt_of_le Nat.zero_lt_one hcntone
  have hw0 : (makeWindows ts l).getD 0 (0, 0) =
      (ts.getD 0 0, ts.getD (min (l - 1) (ts.length - 1)) 0) := by
    have := makeWindows_getD ts l 0 h0
    simpa using this
  have hts0 : ts.getD 0 0 = start := by
    have := hgetD 0 (by omega)
    simpa using this
  have hmlt : min (l - 1) (ts.length - 1) < q + 1 := by omega
  have htsm : ts.getD (min (l - 1) (ts.length - 1)) 0 =
      start + min (l - 1) (ts.length - 1) * step :=
    hgetD (min (l - 1) (ts.length - 1)) hmlt
  have hexplen : (expandFirstWindow ts l step).length = min l ts.length := by
    obtain ⟨w, rest, hcons⟩ : ∃ w rest, makeWindows ts l = w :: rest := by
      cases hmw : makeWindows ts l with
      | nil => rw [hmw] at hcountpos; simp at hcountpos
      | cons a b => exact ⟨a, b, rfl⟩
    have hwval : w = (start, start + min (l - 1) (ts.length - 1) * step) := by
      have hget : (makeWindows ts l).getD 0 (0, 0) = w := by rw [hcons]; rfl
      rw [hw0, hts0, htsm] at hget
      exact hget.symm
    rw [expandFirstWindow, hcons, hwval]
    have hlen2 : (dateRangeList start (start + min (l - 1) (ts.length - 1) * step) step).length
        = min (l - 1) (ts.length - 1) * step / step + 1 := by
      have := dateRangeList_length start
        (start + min (l - 1) (ts.length - 1) * step) step
        (Nat.le_add_right _ _)
      simpa using this
    rw [hlen2, Nat.mul_div_cancel _ hstep]
    omega
  refine ⟨hcount, hexplen, ?_, ?_, ?_⟩
  · -- ok ↔ re-expansion length = l
    obtain ⟨w, rest, hcons⟩ : ∃ w rest, makeWindows ts l = w :: rest := by
      cases hmw : makeWindows ts l with
      | nil => rw [hmw] at hcountpos; simp at hcountpos
      | cons a b => exact ⟨a, b, rfl⟩
    have hexp : expandFirstWindow ts l step = dateRangeList w.1 w.2 step := by
      rw [expandFirstWindow, hcons]
    simp only [generateWindowsFromGrid, hcons]
    by_cases hc : (dateRangeList w.1 w.2 step).length = l
    · rw [if_neg (by simp [hc])]
      constructor
      · intro _; rw [hexp]; exact hc
      · intro _; rfl
    · rw [if_pos (by simpa using hc)]
      constructor
      · intro habs; exact absurd habs (by intro hx; exact Except.noConfusion hx)
      · intro habs; rw [hexp] at habs; exact absurd habs hc
  · -- re-expansion mismatch raises the consistency error
    intro hne
    obtain ⟨w, rest, hcons⟩ : ∃ w rest, makeWindows ts l = w :: rest := by
      cases hmw : makeWindows ts l with
      | nil => rw [hmw] at hcountpos; simp at hcountpos
      | cons a b => exact ⟨a, b, rfl⟩
    have hexp : expandFirstWindow ts l step = dateRangeList w.1 w.2 step := by
      rw [expandFirstWindow, hcons]
    simp only [generateWindowsFromGrid, hcons]
    rw [if_pos (by rw [hexp] at hne; simpa using hne)]
  · -- contiguity
    intro i hi1
    rw [hcount] at hi1
    have hi0 : i < (ts.length + l - 1) / l := Nat.lt_of_succ_lt hi1
    have hle2 : i + 2 ≤ (ts.length + l - 1) / l := Nat.succ_le_of_lt hi1
    have hmul : (i + 2) * l ≤ ts.length + l - 1 := (Nat.le_div_iff_mul_le hl).mp hle2
    have hlink1 : (i + 1) * l + l = (i + 2) * l := by ring
    have hlt : (i + 1) * l < ts.length := by omega
    rw [makeWindows_getD ts l (i + 1) hi1, makeWindows_getD ts l i hi0]
    have hlink2 : i * l + l = (i + 1) * l := by ring
    have hidx1 : (i + 1) * l < q + 1 := by omega
    have hminval : min (i * l + l - 1) (ts.length - 1) = i * l + l - 1 := by omega
    have hidx2 : i * l + l - 1 < q + 1 := by omega
    rw [hminval]
    rw [hgetD ((i + 1) * l) hidx1]
    rw [hgetD (i * l + l - 1) hidx2]
    have hstep3 : (i * l + l - 1) * step + step = (i * l + l) * step := by
      have h4 : (i * l + l - 1) + 1 = i * l + l := by omega
      calc (i * l + l - 1) * step + step = ((i * l + l - 1) + 1) * step := by ring
        _ = (i * l + l) * step := by rw [h4]
    have hstep4 : (i * l + l) * step = ((i + 1) * l) * step := by rw [hlink2]
    omega

/-- Witness for `claim_C3_window_partitioning` on the grid `0, 1, ..., 9`
(`step = 1`) with `docs_per_chunk = 5`. -/
theorem claim_C3_window_partitioning_witness :
    ((makeWindows (dateRangeList 0 9 1) 5).length =
      ((dateRangeList 0 9 1).length + 5 - 1) / 5)
    ∧ ((expandFirstWindow (dateRangeList 0 9 1) 5 1).length =
        min 5 (dateRangeList 0 9 1).length)
    ∧ (generateWindowsFromGrid (dateRangeList 0 9 1) 5 1 =
        Except.ok (makeWindows (dateRangeList 0 9 1) 5) ↔
        (expandFirstWindow (dateRangeList 0 9 1) 5 1).length = 5)
    ∧ ((expandFirstWindow (dateRangeList 0 9 1) 5 1).length ≠ 5 →
        generateWindowsFromGrid (dateRangeList 0 9 1) 5 1 =
          Except.error "Length of first datetimestamps pair generated did not match the chunk size")
    ∧ (∀ i : Nat, i + 1 < (makeWindows (dateRangeList 0 9 1) 5).length →
        ((makeWindows (dateRangeList 0 9 1) 5).getD (i + 1) (0, 0)).1 =
        ((makeWindows (dateRangeList 0 9 1) 5).getD i (0, 0)).2 + 1) :=
  claim_C3_window_partitioning 0 9 1 5 (by decide) (by decide) (by decide)

/-- C4, counterexample: with configured frequency `s` and every grid (at
every frequency, including the finest `ms`) of length 5, below the buffered
expected count 10, `generate_windows` raises no error: it proceeds with the
finest frequency's insufficient grid, refuting the claimed
`InsufficientTimestampRangeError` on exhaustion. -/
theorem claim_C4_counterexample :
    selectFrequency (fun _ => 5) 10 Freq.s = Except.ok (Freq.ms, 5) ∧ (5 : Nat) < 10 := by
  exact ⟨rfl, by decide⟩

/-- The candidate deque below any frequency ends at `ms` (trivially so for
`ms` itself, whose deque is empty). -/
theorem frequenciesAfter_getLastD (initial : Freq) :
    (frequenciesAfter initial).getLastD initial = Freq.ms := by
  cases initial <;> rfl

/-- The refinement loop returns the first candidate whose grid is strictly
larger than the buffered count, or the last candidate when none qualifies. -/
theorem findFrequencyLoop_eq (gridLen : Freq → Nat) (buffered : Nat) :
    ∀ (l : List Freq) (fr : Freq),
    findFrequencyLoop gridLen buffered l fr (gridLen fr) =
      match l.find? (fun f => decide (buffered < gridLen f)) with
      | Option.some f => (f, gridLen f)
      | Option.none => (l.getLastD fr, gridLen (l.getLastD fr)) := by
  intro l
  induction l with
  | nil => intro fr; rfl
  | cons f rest ih =>
    intro fr
    rw [findFrequencyLoop]
    by_cases hf : buffered < gridLen f
    · rw [if_pos hf]
      rw [List.find?_cons_of_pos _ (by simpa using hf)]
    · rw [if_neg hf]
      rw [List.find?_cons_of_neg _ (by simpa using hf)]
      rw [ih f]
      rw [List.getLastD_cons]

/-- C4, amended: when the initial grid is too small, `generate_windows` walks
the ordered finer frequencies and adopts the first whose grid is strictly
larger than the buffered expected count; if none qualifies it adopts the
finest frequency (`ms`) and proceeds with its still-insufficient grid; the
configuration error is raised only when the configured frequency is already
the finest and its grid is too small. -/
theorem claim_C4_amended (gridLen : Freq → Nat) (buffered : Nat) (initial : Freq) :
    ((gridLen initial < buffered ∧ initial = Freq.ms) →
      selectFrequency gridLen buffered initial =
        Except.error "No other time frequencies to try. Not enough timestamps to generate for docs. Please expand dates and frequency accordingly.")
    ∧ (buffered ≤ gridLen initial →
      selectFrequency gridLen buffered initial = Except.ok (initial, gridLen initial))
    ∧ (gridLen initial < buffered → initial ≠ Freq.ms →
      selectFrequency gridLen buffered initial =
        Except.ok
          (match (frequenciesAfter initial).find? (fun f => decide (buffered < gridLen f)) with
           | Option.some f => (f, gridLen f)
           | Option.none => (Freq.ms, gridLen Freq.ms))) := by
  refine ⟨?_, ?_, ?_⟩
  · rintro ⟨hlt, hms⟩
    subst hms
    simp only [selectFrequency]
    rw [if_pos hlt]
    simp
  · intro hge
    simp only [selectFrequency]
    rw [if_neg (by omega)]
  · intro hlt hne
    simp only [selectFrequency]
    rw [if_pos hlt, if_neg hne]
    rw [findFrequencyLoop_eq gridLen buffered (frequenciesAfter initial) initial]
    rw [frequenciesAfter_getLastD initial]

/-- Witness for `claim_C4_amended` exercising all three branches:
`ms` with a small grid errors; a sufficient initial grid is kept; an
insufficient non-`ms` grid falls through the whole candidate list to `ms`. -/
theorem claim_C4_amended_witness :
    selectFrequency (fun _ => 5) 10 Freq.ms =
      Except.error "No other time frequencies to try. Not enough timestamps to generate for docs. Please expand dates and frequency accordingly."
    ∧ selectFrequency (fun _ => 50) 10 Freq.s = Except.ok (Freq.s, 50)
    ∧ selectFrequency (fun _ => 5) 10 Freq.s = Except.ok (Freq.ms, 5) := by
  refine ⟨(claim_C4_amended (fun _ => 5) 10 Freq.ms).1 ⟨by decide, rfl⟩, ?_, ?_⟩
  · exact (claim_C4_amended (fun _ => 50) 10 Freq.s).2.1 (by decide)
  · exact (claim_C4_amended (fun _ => 5) 10 Freq.s).2.2 (by decide) (by decide)

/-! ## Theorems for the dataset writer (claim C2) -/

/-- Invariants of the writer loop: the byte budget is met at exit; every file
except possibly the last reached the per-file ceiling; and when the actual
on-disk bytes per round equal the estimated bytes per round, the sum of file
sizes equals the final running total. -/
theorem datasetRun_spec (total maxFile rA rE : Nat) (hE : 0 < rE) (hM : 0 < maxFile) :
    ∀ (n cur : Nat) (files : List Nat), total - cur ≤ n →
      (∀ f ∈ files, maxFile ≤ f) →
      total ≤ (datasetRun total maxFile rA rE hE hM cur files).2
      ∧ (∀ f ∈ (datasetRun total maxFile rA rE hE hM cur files).1.dropLast, maxFile ≤ f)
      ∧ (rA = rE → files.sum = cur →
          (datasetRun total maxFile rA rE hE hM cur files).1.sum =
          (datasetRun total maxFile rA rE hE hM cur files).2) := by
  intro n
  induction n with
  | zero =>
    intro cur files hn hpre
    rw [datasetRun, if_neg (by omega)]
    refine ⟨by omega, ?_, fun _ hsum => hsum⟩
    intro f hf
    exact hpre f ((List.dropLast_sublist files).subset hf)
  | succ n ih =>
    intro cur files hn hpre
    by_cases hc : cur < total
    · rw [datasetRun, if_pos hc]
      obtain ⟨fs, cur2, hr⟩ : ∃ fs cur2,
          datasetFillFile total maxFile rA rE hE cur 0 = (fs, cur2) := ⟨_, _, rfl⟩
      have hspec := datasetFillFile_spec total maxFile rA rE hE (total - cur) cur 0
        (Nat.le_refl _)
      rw [hr] at hspec
      have hfirst := datasetFillFile_first total maxFile rA rE hE cur 0 hM
      rw [hr] at hfirst
      rw [hr]
      rcases hspec.2.1 with hbig | hdone
      · -- the file reached the ceiling: keep looping with it recorded
        have hpre2 : ∀ f ∈ files ++ [fs], maxFile ≤ f := by
          intro f hf
          rcases List.mem_append.mp hf with hf1 | hf1
          · exact hpre f hf1
          · rw [List.mem_singleton.mp hf1]; exact hbig
        have hih := ih cur2 (files ++ [fs]) (by omega) hpre2
        refine ⟨hih.1, hih.2.1, fun hae hsum => ?_⟩
        have hcons := hspec.2.2 hae
        exact hih.2.2 hae (by simp [hsum]; omega)
      · -- the budget was reached mid-file: this is the final (partial) file
        rw [datasetRun, if_neg (by omega)]
        refine ⟨by omega, ?_, fun hae hsum => ?_⟩
        · intro f hf
          rw [List.dropLast_concat] at hf
          exact hpre f hf
        · have hcons := hspec.2.2 hae
          simp [hsum]
          omega
    · rw [datasetRun, if_neg hc]
      refine ⟨by omega, ?_, fun _ hsum => hsum⟩
      intro f hf
      exact hpre f ((List.dropLast_sublist files).subset hf)

/-- C2, counterexample: with `target_total_bytes = 10000`,
`max_file_bytes = 4000` and rounds of 30 documents of 100 bytes each
(`roundActual = roundEst = 3000`), the run writes two files of 6000 bytes:
the first (non-last) file exceeds `max_file_bytes` — the writer rolls files
only after the stat-measured size reaches the ceiling, so completed files are
at least, not at most, `max_file_bytes`. -/
theorem claim_C2_counterexample :
    generate_dataset 10000 4000 3000 3000 (Nat.succ_pos 2999) (Nat.succ_pos 3999) =
      ([6000, 6000], 12000)
    ∧ ¬ (∀ f ∈ ([6000, 6000] : List Nat).dropLast, f ≤ 4000) := by
  have hf1 : datasetFillFile 10000 4000 3000 3000 (Nat.succ_pos 2999) 0 0 =
      (6000, 6000) := by
    rw [datasetFillFile, if_pos (by norm_num), if_neg (by norm_num)]
    rw [datasetFillFile, if_pos (by norm_num), if_neg (by norm_num)]
    rw [datasetFillFile, if_neg (by norm_num)]
  have hf2 : datasetFillFile 10000 4000 3000 3000 (Nat.succ_pos 2999) 6000 0 =
      (6000, 12000) := by
    rw [datasetFillFile, if_pos (by norm_num), if_neg (by norm_num)]
    rw [datasetFillFile, if_pos (by norm_num), if_pos (by norm_num)]
  constructor
  · rw [generate_dataset]
    rw [datasetRun, if_pos (by norm_num), hf1]
    norm_num
    rw [datasetRun, if_pos (by norm_num), hf2]
    norm_num
    rw [datasetRun, if_neg (by norm_num)]
  · decide

/-- C2, amended: the outer loop terminates exactly when the running estimate
(`docs written × sampled average size`) reaches the target; a new file is
started only after the current file's stat-measured size reaches
`max_file_bytes`, so every produced file except possibly the last has on-disk
size at least `max_file_bytes`; and when each round's actual on-disk bytes
equal the estimated bytes (documents of exactly the sampled average size) the
summed file sizes are at least `target_total_bytes`. -/
theorem claim_C2_amended (total maxFile roundActual roundEst : Nat)
    (hE : 0 < roundEst) (hM : 0 < maxFile) :
    total ≤ (generate_dataset total maxFile roundActual roundEst hE hM).2
    ∧ (∀ f ∈ (generate_dataset total maxFile roundActual roundEst hE hM).1.dropLast,
        maxFile ≤ f)
    ∧ (roundActual = roundEst →
        total ≤ (generate_dataset total maxFile roundActual roundEst hE hM).1.sum) := by
  have h := datasetRun_spec total maxFile roundActual roundEst hE hM total 0 []
    (Nat.le_refl _) (by intro f hf; simp at hf)
  refine ⟨h.1, h.2.1, fun hae => ?_⟩
  have h3 := h.2.2 hae rfl
  rw [generate_dataset] at *
  omega

/-- Witness for `claim_C2_amended` at the counterexample's parameters. -/
theorem claim_C2_amended_witness :
    10000 ≤ (generate_dataset 10000 4000 3000 3000
      (Nat.succ_pos 2999) (Nat.succ_pos 3999)).2
    ∧ 10000 ≤ (generate_dataset 10000 4000 3000 3000
      (Nat.succ_pos 2999) (Nat.succ_pos 3999)).1.sum :=
  ⟨(claim_C2_amended 10000 4000 3000 3000 (Nat.succ_pos 2999) (Nat.succ_pos 3999)).1,
   (claim_C2_amended 10000 4000 3000 3000 (Nat.succ_pos 2999) (Nat.succ_pos 3999)).2.2 rfl⟩

end OsbSdg
